import Mathlib

/-!
Verification of the SSIS (student information system) backend.

This file gives a shallow embedding, in Lean, of the parts of the backend
that the claims concern: the data model (college / program / student / user
rows), the validation functions, the collection-listing pipeline (search,
sort, paginate), the cascading program-code rename, the dashboard cache,
and the auth status endpoint.  Each definition is translated from the
corresponding Python function (module and line references are given in the
doc comments).  The persistence adapter `app/database.py` imported by the
college and program controllers is not present in the repository sources;
where its behaviour is needed it is modelled from the spec's persistence
adapter contract (§4.1) and the SQL statements that the controllers pass
to it, as noted in the relevant doc comments.
-/

namespace SSIS

/-! ## String helpers (Python `str.upper`, `str.lower`, `in`, `strip`) -/

/-- Python `s.upper()` restricted to basic latin, as a per-character map. -/
def upperStr (s : String) : String := ⟨s.data.map Char.toUpper⟩

/-- Python `s.lower()` restricted to basic latin. -/
def lowerStr (s : String) : String := ⟨s.data.map Char.toLower⟩

/-- Python `s.lower()` restricted to basic latin, returning the character list. -/
def lowerChars (s : String) : List Char := s.data.map Char.toLower

/-- `leadsWith n h` is true iff `n` is an initial segment of `h`. -/
def leadsWith : List Char → List Char → Bool
  | [], _ => true
  | _ :: _, [] => false
  | a :: as, b :: bs => a == b && leadsWith as bs

/-- Python's substring test `n in h` on character lists. -/
def isSubList (n : List Char) : List Char → Bool
  | [] => n.isEmpty
  | c :: t => leadsWith n (c :: t) || isSubList n t

/-- Case-insensitive substring test, as the Python controllers write it:
`needle.lower() in hay.lower()`. -/
def containsCI (hay needle : String) : Bool :=
  isSubList (lowerChars needle) (lowerChars hay)

/-- The property `containsCI` decides: the lowered needle occurs inside the
lowered haystack. -/
def OccursCI (hay needle : String) : Prop :=
  ∃ pre post, lowerChars hay = pre ++ lowerChars needle ++ post

/-- Python `s.strip()` on ASCII whitespace, character-list version. -/
def stripChars (l : List Char) : List Char :=
  ((l.dropWhile Char.isWhitespace).reverse.dropWhile Char.isWhitespace).reverse

/-- Python `s.strip()`. -/
def pyStrip (s : String) : String := ⟨stripChars s.data⟩

/-- Python `o or ''` on a nullable string column. -/
def orEmpty (o : Option String) : String := o.getD ""

/-! ## Data model

Row shapes follow the `CREATE TABLE` statements in
`app/college/models.py`, `app/program/models.py` and
`app/student/models.py`: `program.college` and `student.course` are
nullable foreign keys (`ON UPDATE CASCADE ON DELETE SET NULL`). -/

structure CollegeRow where
  code : String
  name : String
  deriving Repr, DecidableEq

structure ProgramRow where
  code : String
  name : String
  college : Option String
  deriving Repr, DecidableEq

structure StudentRow where
  id : String
  firstname : String
  lastname : String
  course : Option String
  year : Int
  gender : String
  profile_photo_url : Option String
  profile_photo_filename : Option String
  deriving Repr, DecidableEq

structure UserRow where
  id : Nat
  username : String
  email : String
  deriving Repr, DecidableEq

/-- The relational state the controllers operate on. -/
structure DB where
  colleges : List CollegeRow
  programs : List ProgramRow
  students : List StudentRow
  deriving Repr, DecidableEq

/-! ## Student search filter (C4)

`app/student/controller.py:125-134`: with `filter == "all"` the search term
(lowercased once) is matched as a substring against the lowercased `id`,
`firstname`, `lastname`, the stripped concatenation
`firstname + ' ' + lastname`, and `course or ''`. -/

/-- The `filter_field == "all"` predicate of `get_students`. -/
def matchesAllFields (search : String) (s : StudentRow) : Bool :=
  containsCI s.id search ||
  containsCI s.firstname search ||
  containsCI s.lastname search ||
  containsCI (pyStrip (s.firstname ++ " " ++ s.lastname)) search ||
  containsCI (orEmpty s.course) search

/-- The search stage of `get_students` for `filter=all` and a non-empty
search string: keep the students the predicate accepts. -/
def studentsSearchAll (students : List StudentRow) (search : String) :
    List StudentRow :=
  students.filter (matchesAllFields search)

/-- The match relation C4 claims (spec wording): the search string is a
case-insensitive substring of the id, the firstname, the lastname, or the
course. -/
def SpecMatchOR (search : String) (s : StudentRow) : Prop :=
  OccursCI s.id search ∨ OccursCI s.firstname search ∨
  OccursCI s.lastname search ∨ OccursCI (orEmpty s.course) search

/-! ## Sorting fallback (C5)

`app/college/controller.py:85-91` and `app/program/controller.py:92-99`
build an `ORDER BY` clause, falling back to the code column ascending for
a sort key outside the whitelist.  `app/student/controller.py:147-160`
instead sorts in memory, one `students.sort(...)` call per whitelisted
key — and no call at all for an unknown key. -/

/-- `(column, descending)` for the college list query. -/
def collegeOrderClause (sort ord : String) : String × Bool :=
  if sort ∈ (["code", "name"] : List String) then
    (sort, lowerStr ord == "desc")
  else
    ("code", false)

/-- `(column, descending)` for the program list query. -/
def programOrderClause (sort ord : String) : String × Bool :=
  if sort ∈ (["code", "name", "college"] : List String) then
    (if sort = "college" then "c.name" else "p." ++ sort, lowerStr ord == "desc")
  else
    ("p.code", false)

/-- Python `list.sort(key=key, reverse=reverse)` for a string key: a stable
sort; with `reverse` the comparison is flipped while ties keep their
original order, which is exactly a stable merge sort under the flipped
total preorder. -/
def pySortStr (key : StudentRow → String) (reverse : Bool)
    (xs : List StudentRow) : List StudentRow :=
  xs.mergeSort fun a b => if reverse then decide (key b ≤ key a) else decide (key a ≤ key b)

/-- Python `list.sort` for an integer key. -/
def pySortInt (key : StudentRow → Int) (reverse : Bool)
    (xs : List StudentRow) : List StudentRow :=
  xs.mergeSort fun a b => if reverse then decide (key b ≤ key a) else decide (key a ≤ key b)

/-- The sorting block of `get_students`
(`app/student/controller.py:147-160`). -/
def applyStudentSort (sort ord : String) (students : List StudentRow) :
    List StudentRow :=
  let reverse := lowerStr ord == "desc"
  if sort = "id" then pySortStr (·.id) reverse students
  else if sort = "firstname" then pySortStr (·.firstname) reverse students
  else if sort = "lastname" then pySortStr (·.lastname) reverse students
  else if sort = "course" then pySortStr (fun s => orEmpty s.course) reverse students
  else if sort = "year" then pySortInt (·.year) reverse students
  else if sort = "gender" then pySortStr (·.gender) reverse students
  else students

/-! ## Aggregate statistics (C6)

`app/college/controller.py:271-310` (`get_college_stats`) runs
`college LEFT JOIN program LEFT JOIN student` grouped by college with
`COUNT(DISTINCT p.code)` and `COUNT(DISTINCT s.id)`;
`app/program/controller.py:335-368` (`get_program_stats`) runs
`program LEFT JOIN student` grouped by program with `COUNT(s.id)`.
The persistence adapter executing the SQL is not in the sources; the join
and grouping semantics below are the standard SQL semantics of the query
texts, with `LEFT JOIN` producing one null-padded row for an unmatched
left row. -/

/-- Programs whose `college` column references this college
(`ON p.college = c.code`). -/
def programsOfCollege (db : DB) (c : CollegeRow) : List ProgramRow :=
  db.programs.filter fun p => p.college == some c.code

/-- Students whose `course` column references this program
(`ON s.course = p.code`). -/
def studentsOfProgram (db : DB) (p : ProgramRow) : List StudentRow :=
  db.students.filter fun s => s.course == some p.code

/-- The join rows contributed by one college in
`college LEFT JOIN program ON c.code = p.college
 LEFT JOIN student ON p.code = s.course`: null-padded when a level has no
match. -/
def collegeJoinRows (db : DB) (c : CollegeRow) :
    List (Option ProgramRow × Option StudentRow) :=
  let ps := programsOfCollege db c
  if ps.isEmpty then [(none, none)]
  else ps.flatMap fun p =>
    let ss := studentsOfProgram db p
    if ss.isEmpty then [(some p, none)] else ss.map fun s => (some p, some s)

structure CollegeStatEntry where
  code : String
  name : String
  program_count : Nat
  student_count : Nat
  deriving Repr, DecidableEq

/-- One `GROUP BY c.code, c.name` output row: `COUNT(DISTINCT p.code)` and
`COUNT(DISTINCT s.id)` over the college's join rows (`COUNT` ignores
nulls). -/
def collegeStatEntry (db : DB) (c : CollegeRow) : CollegeStatEntry :=
  let rows := collegeJoinRows db c
  { code := c.code
    name := c.name
    program_count := (((rows.filterMap Prod.fst).map ProgramRow.code).dedup).length
    student_count := (((rows.filterMap Prod.snd).map StudentRow.id).dedup).length }

/-- `GET /colleges/stats`: total college count plus one entry per college,
ordered by code. -/
def get_college_stats (db : DB) : Nat × List CollegeStatEntry :=
  (db.colleges.length,
    (db.colleges.mergeSort fun a b => decide (a.code.data ≤ b.code.data)).map
      (collegeStatEntry db))

structure EnrollmentEntry where
  code : String
  name : String
  enrollment : Nat
  deriving Repr, DecidableEq

/-- The join rows contributed by one program in
`program LEFT JOIN student ON p.code = s.course`. -/
def programJoinRows (db : DB) (p : ProgramRow) : List (Option StudentRow) :=
  let ss := studentsOfProgram db p
  if ss.isEmpty then [none] else ss.map some

/-- One `GROUP BY p.code, p.name` output row of the enrollment query:
`COUNT(s.id)` over the program's join rows. -/
def enrollmentEntry (db : DB) (p : ProgramRow) : EnrollmentEntry :=
  { code := p.code
    name := p.name
    enrollment := ((programJoinRows db p).filterMap id).length }

/-- The `enrollment` section of `GET /programs/stats`, ordered by code. -/
def get_program_stats_enrollment (db : DB) : List EnrollmentEntry :=
  (db.programs.mergeSort fun a b => decide (a.code.data ≤ b.code.data)).map
    (enrollmentEntry db)

/-! ## Pagination (C3)

All three app-iteration collection endpoints compute
`(total + per_page - 1) // per_page if total > 0 else 0`
(`app/college/controller.py:109`, `app/program/controller.py:126`,
`app/student/controller.py:179`). -/

structure Paginated (α : Type) where
  items : List α
  total : Nat
  page : Nat
  pages : Nat
  deriving Repr

/-- The shared `pages` formula of the collection endpoints. -/
def pagesFor (total per_page : Nat) : Nat :=
  if total > 0 then (total + per_page - 1) / per_page else 0

/-- The pagination step of `get_students`
(`app/student/controller.py:162-180`): slice, then report
`items/total/page/pages`. -/
def paginate {α : Type} (xs : List α) (page per_page : Nat) : Paginated α :=
  { items := (xs.drop ((page - 1) * per_page)).take per_page
    total := xs.length
    page := page
    pages := pagesFor xs.length per_page }

/-! ## Auth status endpoint (C7)

`app/auth/controller.py:127-145` (`status`): a missing session or a
session whose `user_id` matches no user both yield HTTP 200 with
`isAuthenticated: false`; a valid session yields 200 with the user. -/

structure StatusBody where
  isAuthenticated : Bool
  user : Option UserRow
  deriving Repr, DecidableEq

/-- The user the session refers to, if any. -/
def sessionUser (sess : Option Nat) (users : List UserRow) : Option UserRow :=
  sess.bind fun uid => users.find? fun u => u.id == uid

/-- `GET /auth/status`: returns the HTTP status, the body, and the session
left behind (the handler clears a dangling session). -/
def authStatus (sess : Option Nat) (users : List UserRow) :
    Nat × StatusBody × Option Nat :=
  match sess with
  | none => (200, ⟨false, none⟩, none)
  | some uid =>
    match users.find? (fun u => u.id == uid) with
    | none => (200, ⟨false, none⟩, none)
    | some u => (200, ⟨true, some u⟩, some uid)

/-! ## Dashboard cache (C2)

`app/cache.py`: `get_cached_dashboard_stats` serves the cached totals when
present, else counts each table and stores the result (TTL 600s — time is
not modelled, so a cached entry stays until deleted, the worst case for
staleness); `clear_dashboard_cache` (lines 106-114) deletes the three
dashboard entries.  Of the mutating handlers only the student controller
calls `clear_dashboard_cache`; the college and program controllers never
reference it. -/

structure DashTotals where
  total_students : Nat
  total_programs : Nat
  total_colleges : Nat
  deriving Repr, DecidableEq

/-- The three flask-cache entries used by the dashboard. -/
structure CacheState where
  dashboard_stats : Option DashTotals
  program_charts : Option (List (String × String × Nat))
  college_charts : Option (List (String × String × Nat))
  deriving Repr, DecidableEq

/-- The cache-miss computation of `get_cached_dashboard_stats`:
`Student.count_students()`, `len(Program.get_all_programs())`,
`len(College.get_all_colleges())`. -/
def computeDashboardTotals (db : DB) : DashTotals :=
  ⟨db.students.length, db.programs.length, db.colleges.length⟩

/-- `app/cache.py:6-41` (`get_cached_dashboard_stats`). -/
def get_cached_dashboard_stats (db : DB) (cache : CacheState) :
    DashTotals × CacheState :=
  match cache.dashboard_stats with
  | some v => (v, cache)
  | none =>
    let v := computeDashboardTotals db
    (v, { cache with dashboard_stats := some v })

/-- `app/cache.py:106-114` (`clear_dashboard_cache`): delete all three
dashboard entries. -/
def clear_dashboard_cache (_cache : CacheState) : CacheState :=
  ⟨none, none, none⟩

/-! ## College validation and creation (C2)

`app/college/controller.py:15-53` (`validate_college_data`, create path)
and lines 162-188 (`create_college`).  The `insert_record` primitive of
the absent `app/database.py` adapter is modelled from the spec's
persistence-adapter contract (§4.1): `insert(table, data) -> row` appends
the row. -/

structure CollegePayload where
  code : Option String
  name : Option String
  deriving Repr

/-- Regex `^[A-Z0-9\-]{2,10}$` applied to `data["code"].upper()`. -/
def collegeCodeFormatOk (code : String) : Bool :=
  let u := (upperStr code).data
  decide (2 ≤ u.length) && decide (u.length ≤ 10) &&
    u.all fun c => c.isUpper || c.isDigit || c == '-'

/-- `validate_college_data(data)` on the create path (`is_update=False`). -/
def validate_college_data (db : DB) (data : CollegePayload) : List String :=
  let requiredErrors :=
    (if orEmpty data.code = "" then ["code is required"] else []) ++
    (if orEmpty data.name = "" then ["name is required"] else [])
  let codeErrors :=
    match data.code with
    | none => []
    | some c0 =>
      if c0 = "" then []
      else
        (if !collegeCodeFormatOk c0 then
          ["College code must be 2-10 characters, letters, numbers, and hyphens only"]
        else []) ++
        (match db.colleges.find? (fun c => c.code == upperStr c0) with
         | some _ => ["College code already exists"]
         | none => [])
  let nameErrors :=
    match data.name with
    | none => []
    | some n0 =>
      if n0 = "" then []
      else
        (if (pyStrip n0).data.length < 5 then
          ["College name must be at least 5 characters long"]
        else []) ++
        (if (pyStrip n0).data.length > 100 then
          ["College name must not exceed 100 characters"]
        else [])
  requiredErrors ++ codeErrors ++ nameErrors

inductive CollegeCreateResult where
  | created (row : CollegeRow)
  | badRequest (errors : List String)
  deriving Repr, DecidableEq

/-- `POST /colleges` (`create_college`): validate, then insert
`{code: data["code"].upper().strip(), name: data["name"].strip()}`.
The handler does **not** touch the dashboard cache. -/
def create_college (db : DB) (cache : CacheState) (data : CollegePayload) :
    DB × CacheState × CollegeCreateResult :=
  let errors := validate_college_data db data
  if errors.isEmpty then
    let row : CollegeRow :=
      ⟨pyStrip (upperStr (orEmpty data.code)), pyStrip (orEmpty data.name)⟩
    ({ db with colleges := db.colleges ++ [row] }, cache, .created row)
  else
    (db, cache, .badRequest errors)

/-! ## Student validation (C8, C9, C10)

`app/student/controller.py:41-92` (`validate_student_data`) and, in the
older ORM iteration, `routes/student.py:10-44` (same name, different
rules: the course error carries no sample of valid codes). -/

structure StudentPayload where
  id : Option String
  firstname : Option String
  lastname : Option String
  course : Option String
  year : Option Int
  gender : Option String
  profile_photo_url : Option String
  profile_photo_filename : Option String
  deriving Repr

/-- Python truthiness of an optional string field (`data.get(f)` absent or
empty is falsy). -/
def truthyS (o : Option String) : Bool := !(orEmpty o == "")

/-- Python truthiness of the `year` field (absent or `0` is falsy). -/
def truthyYear (o : Option Int) : Bool :=
  match o with
  | none => false
  | some v => !(v == 0)

/-- Regex `^[0-9]{4}-[0-9]{4}$`. -/
def idFormatOk (s : String) : Bool :=
  match s.data with
  | [a, b, c, d, dash, e, f, g, h] =>
    a.isDigit && b.isDigit && c.isDigit && d.isDigit && dash == '-' &&
    e.isDigit && f.isDigit && g.isDigit && h.isDigit
  | _ => false

/-- Python `s.capitalize()` (basic latin). -/
def pyCapitalize (s : String) : String :=
  match s.data with
  | [] => ""
  | c :: t => ⟨Char.toUpper c :: t.map Char.toLower⟩

/-- Python `', '.join(l)`. -/
def joinComma : List String → String
  | [] => ""
  | [a] => a
  | a :: rest => a ++ ", " ++ joinComma rest

/-- The keys of the `get_valid_programs()` dict
(`{p['code'].upper(): p for p in programs}`), in table order. -/
def validProgramCodes (db : DB) : List String :=
  db.programs.map fun p => upperStr p.code

/-- `valid_programs[course_upper]` (program codes are primary keys, so at
most one program matches). -/
def lookupProgram (db : DB) (courseUpper : String) : Option ProgramRow :=
  db.programs.find? fun p => upperStr p.code == courseUpper

/-- The message built at `app/student/controller.py:86-90` for an unknown
course: the first 5 valid codes are appended when any exist. -/
def invalidCourseMsg (db : DB) (course : String) : String :=
  let available := (validProgramCodes db).take 5
  let base := "Invalid program code '" ++ course ++ "'"
  if available.isEmpty then base
  else base ++ ". Available: " ++ joinComma available ++ "..."

/-- The required-field loop shared by both validators
(`for field in [...]: if field not in data or not data[field]`). -/
def requiredFieldErrors (data : StudentPayload) : List String :=
  (if truthyS data.id then [] else ["id is required"]) ++
  (if truthyS data.firstname then [] else ["firstname is required"]) ++
  (if truthyS data.lastname then [] else ["lastname is required"]) ++
  (if truthyS data.course then [] else ["course is required"]) ++
  (if truthyYear data.year then [] else ["year is required"]) ++
  (if truthyS data.gender then [] else ["gender is required"])

/-- `validate_student_data(data, student_id)` of the app iteration
(`app/student/controller.py:41-92`). -/
def validate_student_data (db : DB) (data : StudentPayload)
    (student_id : Option String) : List String :=
  let idErrors :=
    match data.id with
    | none => []
    | some i0 =>
      if i0 = "" then []
      else
        let sid := upperStr i0
        if !idFormatOk sid then
          ["Student ID must follow format YYYY-NNNN (e.g., 2024-0001)"]
        else
          match db.students.find? (fun s => s.id == sid) with
          | some existing =>
            (match student_id with
             | none => ["Student ID already exists"]
             | some sp =>
               if existing.id ≠ sp then ["Student ID already exists"] else [])
          | none => []
  let yearErrors :=
    match data.year with
    | none => []
    | some v =>
      if v = 0 then []
      else if v < 1 ∨ v > 6 then ["Year must be between 1 and 6"] else []
  let genderErrors :=
    match data.gender with
    | none => []
    | some g =>
      if g = "" then []
      else if lowerStr g ∈ (["male", "female", "non-binary",
          "prefer not to say", "other"] : List String) then []
      else ["Gender must be Male, Female, Non-binary, Prefer not to say, or Other"]
  let courseErrors :=
    match data.course with
    | none => []
    | some c0 =>
      if c0 = "" then []
      else if (validProgramCodes db).contains (upperStr c0) then []
      else [invalidCourseMsg db c0]
  requiredFieldErrors data ++ idErrors ++ yearErrors ++ genderErrors ++ courseErrors

/-- `validate_student_data(data, student_id)` of the ORM iteration
(`routes/student.py:10-44`): the unknown-course branch reports only
`"Invalid program code"`, with no sample of valid codes. -/
def validate_student_data_routes (db : DB) (data : StudentPayload)
    (student_id : Option String) : List String :=
  let idErrors :=
    match data.id with
    | none => []
    | some i0 =>
      if i0 = "" then []
      else
        let sid := upperStr i0
        (if !idFormatOk sid then ["Student ID must follow format YYYY-NNNN"] else []) ++
        (match db.students.find? (fun s => s.id == sid) with
         | some existing =>
           (match student_id with
            | none => ["Student ID already exists"]
            | some sp =>
              if existing.id ≠ sp then ["Student ID already exists"] else [])
         | none => [])
  let yearErrors :=
    match data.year with
    | none => []
    | some v =>
      if v = 0 then []
      else if v < 1 ∨ v > 6 then ["Year must be between 1 and 6"] else []
  let genderErrors :=
    match data.gender with
    | none => []
    | some g =>
      if g = "" then []
      else if lowerStr g ∈ (["male", "female"] : List String) then []
      else ["Gender must be Male or Female"]
  let courseErrors :=
    match data.course with
    | none => []
    | some c0 =>
      if c0 = "" then []
      else
        match db.programs.find? (fun p => p.code == upperStr c0) with
        | some _ => []
        | none => ["Invalid program code"]
  requiredFieldErrors data ++ idErrors ++ yearErrors ++ genderErrors ++ courseErrors

/-! ## Student CRUD controllers (C2, C9, C10)

`app/student/controller.py`: `create_student_json` (223-258),
`get_student` (187-203), `update_student_json` (374-435),
`delete_student` (555-578); `app/student/models.py`:
`Student.create_student` (203-223), `Student.get_by_id` (37-40),
`Student.update_student` (225-263), `Student.delete_student` (265-290). -/

inductive StudentResult where
  | created (row : StudentRow)
  | ok (row : StudentRow)
  | okMsg (msg : String)
  | badRequest (errors : List String)
  | notFound (msg : String)
  | serverError (msg : String)
  deriving Repr, DecidableEq

/-- `POST /students` with a JSON body (`create_student_json`): validate,
resolve the stored-case program code, insert with the id uppercased
(`data["id"].upper().strip()` in the controller and `student_id.upper()`
again in the model), then clear the dashboard cache. -/
def create_student_json (db : DB) (cache : CacheState) (data : StudentPayload) :
    DB × CacheState × StudentResult :=
  let errors := validate_student_data db data none
  if errors.isEmpty then
    let courseUpper := upperStr (orEmpty data.course)
    let actualCourse :=
      match lookupProgram db courseUpper with
      | some p => p.code
      | none => courseUpper
    let row : StudentRow :=
      { id := upperStr (pyStrip (upperStr (orEmpty data.id)))
        firstname := pyStrip (orEmpty data.firstname)
        lastname := pyStrip (orEmpty data.lastname)
        course := some actualCourse
        year := (data.year).getD 0
        gender := pyCapitalize (orEmpty data.gender)
        profile_photo_url := data.profile_photo_url
        profile_photo_filename := data.profile_photo_filename }
    ({ db with students := db.students ++ [row] }, clear_dashboard_cache cache,
      .created row)
  else
    (db, cache, .badRequest errors)

/-- `GET /students/{id}` (`get_student`): `Student.get_by_id(student_id.upper())`
is an exact-id lookup of the uppercased path parameter. -/
def get_student_ctrl (db : DB) (studentId : String) : StudentResult :=
  match db.students.find? (fun s => s.id == upperStr studentId) with
  | none => .notFound "Student not found"
  | some s => .ok s

/-- `DELETE /students/{id}` (`delete_student`): look up by the uppercased
id, delete the row, clear the dashboard cache. -/
def delete_student_ctrl (db : DB) (cache : CacheState) (studentId : String) :
    DB × CacheState × StudentResult :=
  match db.students.find? (fun s => s.id == upperStr studentId) with
  | none => (db, cache, .notFound "Student not found")
  | some _ =>
    ({ db with students := db.students.filter fun s => !(s.id == upperStr studentId) },
      clear_dashboard_cache cache, .okMsg "Student deleted successfully")

/-- The parameters `Student.update_student` accepts
(`app/student/models.py:226`). -/
def update_student_params : List String :=
  ["student_id", "firstname", "lastname", "course", "year", "gender",
   "profile_photo_url", "profile_photo_filename"]

/-- The keyword arguments `update_student_json` passes to
`Student.update_student` (`app/student/controller.py:405-415`). -/
def update_student_json_kwargs : List String :=
  ["student_id", "firstname", "lastname", "course", "year", "gender",
   "new_id", "profile_photo_url", "profile_photo_filename"]

/-- Python call binding: a keyword argument outside the callee's parameter
list raises `TypeError` before the body runs. -/
def updateCallRaisesTypeError : Bool :=
  update_student_json_kwargs.any fun k => !(update_student_params.contains k)

/-- The body of `Student.update_student` as it would run if the call bound:
set each truthy field on the rows with the given id. -/
def updateStudentRow (data : StudentPayload) (yearValue : Option Int)
    (s : StudentRow) : StudentRow :=
  { s with
    firstname := if truthyS data.firstname then pyStrip (orEmpty data.firstname)
      else s.firstname
    lastname := if truthyS data.lastname then pyStrip (orEmpty data.lastname)
      else s.lastname
    course := if truthyS data.course then some (pyStrip (upperStr (orEmpty data.course)))
      else s.course
    year := match yearValue with
      | some v => if v ≠ 0 then v else s.year
      | none => s.year
    gender := if truthyS data.gender then pyCapitalize (orEmpty data.gender)
      else s.gender
    profile_photo_url := match data.profile_photo_url with
      | some u => some u
      | none => s.profile_photo_url
    profile_photo_filename := match data.profile_photo_filename with
      | some f => some f
      | none => s.profile_photo_filename }

/-- `PUT /students/{id}` with a JSON body (`update_student_json`): after the
404 check and validation, the handler calls `Student.update_student` with a
`new_id` keyword its signature does not accept; the resulting `TypeError`
is caught by the handler's `except` branch, which answers 500 with a
generic body and leaves both the database and the cache unchanged.  The
final branch embeds the update the handler would perform if the call could
bind. -/
def update_student_json (db : DB) (cache : CacheState) (sidParam : String)
    (data : StudentPayload) : DB × CacheState × StudentResult :=
  match db.students.find? (fun s => s.id == upperStr sidParam) with
  | none => (db, cache, .notFound "Student not found")
  | some _ =>
    let errors := validate_student_data db data (some (upperStr sidParam))
    if errors.isEmpty then
      if updateCallRaisesTypeError then
        (db, cache, .serverError "Failed to update student")
      else
        let origId := upperStr sidParam
        let db' := { db with students := db.students.map fun s =>
          if s.id == origId then updateStudentRow data data.year s else s }
        match db'.students.find? (fun s => s.id == origId) with
        | some updated =>
          (db', clear_dashboard_cache cache, .ok updated)
        | none => (db', cache, .notFound "Student not found or no changes made")
    else
      (db, cache, .badRequest errors)

/-! ## Program update with cascading code rename (C1)

`app/program/controller.py:14-50` (`validate_program_data`) and 201-291
(`update_program`).  The student table declares
`course ... REFERENCES program(code) ON UPDATE CASCADE`
(`app/student/models.py:25`), so the single transactional
`UPDATE program SET code = %s WHERE UPPER(code) = %s` also rewrites the
`course` of every student row that references an updated program row;
that database-side cascade is part of the embedded update.  The
transaction primitives (`db_manager.get_cursor(commit=True)`, `ROLLBACK`)
live in the absent `app/database.py` adapter and are modelled from the
spec's atomicity contract: the mismatch branch returns the unmodified
state. -/

structure ProgramPayload where
  code : Option String
  name : Option String
  college : Option String
  deriving Repr

/-- Regex `^[A-Za-z0-9\-]{2,10}$` applied to `data["code"].strip()`. -/
def programCodeFormatOk (code : String) : Bool :=
  decide (2 ≤ code.data.length) && decide (code.data.length ≤ 10) &&
    code.data.all fun c => c.isAlphanum || c == '-'

/-- `validate_program_data(data, program_code)`
(`app/program/controller.py:14-50`). -/
def validate_program_data (db : DB) (data : ProgramPayload)
    (program_code : Option String) : List String :=
  let requiredErrors :=
    (if orEmpty data.code = "" then ["code is required"] else []) ++
    (if orEmpty data.name = "" then ["name is required"] else []) ++
    (if orEmpty data.college = "" then ["college is required"] else [])
  let codeErrors :=
    match data.code with
    | none => []
    | some c0 =>
      if c0 = "" then []
      else
        let code := pyStrip c0
        (if !programCodeFormatOk code then
          ["Program code must be 2-10 characters, letters, numbers, and hyphens only"]
        else []) ++
        (match db.programs.find? (fun p => upperStr p.code == upperStr code) with
         | some existing =>
           (match program_code with
            | some pc =>
              if upperStr existing.code ≠ upperStr pc then
                ["Program code already exists"]
              else []
            | none => ["Program code already exists"])
         | none => [])
  let nameErrors :=
    match data.name with
    | none => []
    | some n0 =>
      if n0 = "" then []
      else
        (if (pyStrip n0).data.length < 5 then
          ["Program name must be at least 5 characters long"]
        else []) ++
        (if (pyStrip n0).data.length > 100 then
          ["Program name must not exceed 100 characters"]
        else [])
  let collegeErrors :=
    match data.college with
    | none => []
    | some col =>
      if col = "" then []
      else
        match db.colleges.find? (fun c => upperStr c.code == upperStr col) with
        | some _ => []
        | none => ["Invalid college code"]
  requiredErrors ++ codeErrors ++ nameErrors ++ collegeErrors

inductive ProgramUpdateResult where
  | ok (program : Option ProgramRow) (code_changed : Bool) (affected : Nat)
  | badRequest (errors : List String)
  | noFields
  | notFound
  | rolledBack (msg : String)
  deriving Repr, DecidableEq

/-- The transactional block of `update_program` for a code change
(`app/program/controller.py:237-268`): read the students whose
`UPPER(course)` equals the old code, run
`UPDATE program SET code = %s WHERE UPPER(code) = %s` — whose declared
`ON UPDATE CASCADE` rewrites the `course` of every student row referencing
an updated program row — re-read the students with `course = new_code`,
and roll the whole transaction back (returning the unchanged state) when
the two counts differ. -/
def cascadeRename (db : DB) (old_code nc : String) : DB × ProgramUpdateResult :=
  let affected := db.students.filter fun s =>
    (s.course.map upperStr) == some (upperStr old_code)
  let programs' := db.programs.map fun p =>
    if upperStr p.code == upperStr old_code then { p with code := nc } else p
  let students' := db.students.map fun s =>
    if db.programs.any (fun p =>
        (s.course == some p.code) && (upperStr p.code == upperStr old_code))
    then { s with course := some nc } else s
  let updated := students'.filter fun s => s.course == some nc
  if updated.length ≠ affected.length then
    (db, .rolledBack
      "Failed to update all student references. Transaction rolled back.")
  else
    let db' := { db with programs := programs', students := students' }
    (db', .ok (db'.programs.find? fun p => upperStr p.code == upperStr nc)
      true affected.length)

/-- `PUT /programs/{code}` (`update_program`).  On a code change the
transaction reads the students referencing the old code
(`UPPER(course) = old.upper()`), updates the program row (the declared
`ON UPDATE CASCADE` rewrites the referencing students' `course`), re-reads
the students with `course = new_code`, and compares the two counts: on a
mismatch the transaction is rolled back and the 500 body names the
rollback; otherwise the new state is committed.  Without a code change
only `name`/`college` are written. -/
def update_program (db : DB) (codeParam : String) (data : ProgramPayload) :
    DB × ProgramUpdateResult :=
  match db.programs.find? (fun p => upperStr p.code == upperStr codeParam) with
  | none => (db, .notFound)
  | some existing =>
    let errors := validate_program_data db data (some (upperStr codeParam))
    if errors.isEmpty then
      let old_code := existing.code
      let newName := data.name.map pyStrip
      let newCollege := data.college.map fun c => pyStrip (upperStr c)
      let newCode : Option String :=
        match data.code with
        | none => none
        | some c0 =>
          let nc := pyStrip c0
          if upperStr nc ≠ upperStr old_code then some nc else none
      if newName.isNone ∧ newCollege.isNone ∧ newCode.isNone then
        (db, .noFields)
      else
        match newCode with
        | some nc => cascadeRename db old_code nc
        | none =>
          let programs' := db.programs.map fun p =>
            if upperStr p.code == upperStr old_code then
              { p with
                name := newName.getD p.name
                college := match newCollege with
                  | some c => some c
                  | none => p.college }
            else p
          let db' := { db with programs := programs' }
          (db', .ok (db'.programs.find? fun p => upperStr p.code == upperStr old_code)
            false 0)
    else
      (db, .badRequest errors)

/-! ## Invariants and concrete fixtures -/

/-- Every stored student id is already uppercase (C10's invariant). -/
def AllUpperIds (db : DB) : Prop :=
  ∀ s ∈ db.students, upperStr s.id = s.id

/-- Every non-null `student.course` references an existing program row
(the foreign key `student.course REFERENCES program(code)`). -/
def CourseFK (db : DB) : Prop :=
  ∀ s ∈ db.students, ∀ c, s.course = some c → ∃ p ∈ db.programs, p.code = c

/-- A one-college fixture. -/
def ccs : CollegeRow := ⟨"CCS", "College of Computer Studies"⟩

/-- A one-program fixture. -/
def bscs : ProgramRow := ⟨"BSCS", "BS Computer Science", some "CCS"⟩

/-- A one-student fixture enrolled in `bscs`. -/
def stuJohn : StudentRow :=
  ⟨"2024-0001", "John", "Doe", some "BSCS", 2, "Male", none, none⟩

/-- Fixture database: one college, one program, one student. -/
def dbFix : DB := ⟨[ccs], [bscs], [stuJohn]⟩

/-- A valid student payload matching `stuJohn`. -/
def payloadJohn : StudentPayload :=
  ⟨some "2024-0001", some "John", some "Doe", some "BSCS", some 2, some "Male",
    none, none⟩

/-- A fresh valid student payload (id not yet taken). -/
def payloadJane : StudentPayload :=
  ⟨some "2024-0002", some "Jane", some "Roe", some "BSCS", some 3, some "Female",
    none, none⟩

/-- A cache with a populated dashboard entry. -/
def warmCache : CacheState := ⟨some ⟨0, 0, 0⟩, none, none⟩

/-- C2 counterexample, step 1: a dashboard read on the empty database
caches totals of zero. -/
def c2_read1 : DashTotals × CacheState :=
  get_cached_dashboard_stats ⟨[], [], []⟩ ⟨none, none, none⟩

/-- C2 counterexample, step 2: a college is created; the handler leaves the
cache as is. -/
def c2_create : DB × CacheState × CollegeCreateResult :=
  create_college ⟨[], [], []⟩ c2_read1.2
    ⟨some "CCS", some "College of Computer Studies"⟩

/-- C2 counterexample, step 3: the next dashboard read serves the stale
cached totals. -/
def c2_read2 : DashTotals × CacheState :=
  get_cached_dashboard_stats c2_create.1 c2_create.2.1

/-- Fixture for the cascading rename: program `P1` with one enrolled
student. -/
def dbP1 : DB :=
  ⟨[ccs], [⟨"P1", "Program One", some "CCS"⟩],
    [⟨"2024-0001", "John", "Doe", some "P1", 2, "Male", none, none⟩]⟩

end SSIS

namespace SSIS

theorem leadsWith_iff (n h : List Char) :
    leadsWith n h = true ↔ ∃ post, h = n ++ post := by
  induction n generalizing h with
  | nil => simp [leadsWith]
  | cons a as ih =>
    cases h with
    | nil => simp [leadsWith]
    | cons b bs =>
      simp only [leadsWith, Bool.and_eq_true, beq_iff_eq, ih]
      constructor
      · rintro ⟨rfl, post, rfl⟩; exact ⟨post, rfl⟩
      · rintro ⟨post, hpost⟩
        rcases List.cons_eq_cons.mp hpost with ⟨rfl, rfl⟩
        exact ⟨rfl, post, rfl⟩

theorem isSubList_iff (n h : List Char) :
    isSubList n h = true ↔ ∃ pre post, h = pre ++ n ++ post := by
  induction h with
  | nil =>
    simp only [isSubList, List.isEmpty_iff]
    constructor
    · rintro rfl; exact ⟨[], [], rfl⟩
    · rintro ⟨pre, post, hp⟩
      have h1 := List.append_eq_nil.mp hp.symm
      exact (List.append_eq_nil.mp h1.1).2
  | cons c t ih =>
    simp only [isSubList, Bool.or_eq_true, leadsWith_iff, ih]
    constructor
    · rintro (⟨post, hp⟩ | ⟨pre, post, hp⟩)
      · exact ⟨[], post, by simpa using hp⟩
      · exact ⟨c :: pre, post, by simp [hp]⟩
    · rintro ⟨pre, post, hp⟩
      cases pre with
      | nil => exact .inl ⟨post, by simpa using hp⟩
      | cons x xs =>
        have hx : c :: t = x :: (xs ++ n ++ post) := by simpa using hp
        exact .inr ⟨xs, post, (List.cons_eq_cons.mp hx).2⟩

theorem containsCI_iff (hay needle : String) :
    containsCI hay needle = true ↔ OccursCI hay needle :=
  isSubList_iff _ _

theorem joinComma_decomp (l : List String) (x : String) (hx : x ∈ l) :
    ∃ pre post, (joinComma l).data = pre ++ x.data ++ post := by
  induction l with
  | nil => cases hx
  | cons a rest ih =>
    cases rest with
    | nil =>
      rcases List.mem_singleton.mp hx with rfl
      exact ⟨[], [], by simp [joinComma]⟩
    | cons b more =>
      rcases List.mem_cons.mp hx with rfl | hx'
      · exact ⟨[], (", " ++ joinComma (b :: more)).data, by simp [joinComma]⟩
      · obtain ⟨pre, post, hd⟩ := ih hx'
        exact ⟨a.data ++ ", ".data ++ pre, post,
          by simp [joinComma, hd, List.append_assoc]⟩

theorem matchesAllFields_iff (search : String) (s : StudentRow) :
    matchesAllFields search s = true ↔
      (OccursCI s.id search ∨ OccursCI s.firstname search ∨
        OccursCI s.lastname search ∨
        OccursCI (pyStrip (s.firstname ++ " " ++ s.lastname)) search ∨
        OccursCI (orEmpty s.course) search) := by
  simp only [matchesAllFields, Bool.or_eq_true, containsCI_iff]
  tauto

/-- C4, counterexample: the student `(Al, Bo, BS)` is returned for the
`filter=all` search `"l b"` — the term matches the concatenated full name
`"Al Bo"` — although `"l b"` is a case-insensitive substring of none of
the id, firstname, lastname, or course.  The claim's "exactly those
students" characterisation is therefore false. -/
theorem searchAll_beyond_field_or :
    studentsSearchAll [⟨"2024-0001", "Al", "Bo", some "BS", 1, "Male", none, none⟩] "l b"
      = [⟨"2024-0001", "Al", "Bo", some "BS", 1, "Male", none, none⟩] ∧
    ¬ SpecMatchOR "l b" ⟨"2024-0001", "Al", "Bo", some "BS", 1, "Male", none, none⟩ := by
  constructor
  · decide
  · rintro (h | h | h | h)
    · exact absurd ((containsCI_iff "2024-0001" "l b").mpr h) (by decide)
    · exact absurd ((containsCI_iff "Al" "l b").mpr h) (by decide)
    · exact absurd ((containsCI_iff "Bo" "l b").mpr h) (by decide)
    · exact absurd ((containsCI_iff (orEmpty (some "BS")) "l b").mpr h) (by decide)

/-- C4, amended: for `filter=all` the returned set is exactly the students
for which the search string is a case-insensitive substring of the id, the
firstname, the lastname, the course, **or of the stripped space-joined
full name** `firstname + ' ' + lastname`. -/
theorem searchAll_mem_iff (students : List StudentRow) (search : String)
    (s : StudentRow) :
    s ∈ studentsSearchAll students search ↔
      s ∈ students ∧
      (OccursCI s.id search ∨ OccursCI s.firstname search ∨
        OccursCI s.lastname search ∨
        OccursCI (pyStrip (s.firstname ++ " " ++ s.lastname)) search ∨
        OccursCI (orEmpty s.course) search) := by
  rw [studentsSearchAll, List.mem_filter, matchesAllFields_iff]

/-- C5, counterexample: with the unknown sort key `"bogus"` the student
list endpoint does not reorder at all — the natural-key-descending input
`[2024-0002, 2024-0001]` comes back unchanged, not in id-ascending order
(the second conjunct is the strict lexicographic comparison of the two
ids, on their character lists). -/
theorem unknown_sort_students_unsorted :
    applyStudentSort "bogus" "asc"
        [⟨"2024-0002", "B", "B", none, 1, "Male", none, none⟩,
         ⟨"2024-0001", "A", "A", none, 1, "Male", none, none⟩]
      = [⟨"2024-0002", "B", "B", none, 1, "Male", none, none⟩,
         ⟨"2024-0001", "A", "A", none, 1, "Male", none, none⟩] ∧
    "2024-0001".data < "2024-0002".data := by
  exact ⟨rfl, by decide⟩

/-- C5, amended: the college and program list queries do fall back to the
natural key (`code`, `p.code`) ascending when the sort key is not
whitelisted, but the student endpoint leaves the list in its incoming
(database) order for an unknown sort key instead of sorting by id. -/
theorem unknown_sort_fallbacks (sort ord : String)
    (hc : sort ∉ (["code", "name"] : List String))
    (hp : sort ∉ (["code", "name", "college"] : List String))
    (hs : sort ∉ (["id", "firstname", "lastname", "course", "year", "gender"] : List String)) :
    collegeOrderClause sort ord = ("code", false) ∧
    programOrderClause sort ord = ("p.code", false) ∧
    ∀ students : List StudentRow, applyStudentSort sort ord students = students := by
  refine ⟨?_, ?_, ?_⟩
  · rw [collegeOrderClause, if_neg hc]
  · rw [programOrderClause, if_neg hp]
  · intro students
    simp only [List.mem_cons, List.mem_singleton, not_or] at hs
    obtain ⟨h1, h2, h3, h4, h5, h6, -⟩ := hs
    simp [applyStudentSort, h1, h2, h3, h4, h5, h6]

/-- Witness for the amended C5 at the concrete unknown sort key `"bogus"`. -/
theorem unknown_sort_fallbacks_witness :
    collegeOrderClause "bogus" "asc" = ("code", false) ∧
    applyStudentSort "bogus" "asc" [] = [] := by
  have h := unknown_sort_fallbacks "bogus" "asc" (by decide) (by decide) (by decide)
  exact ⟨h.1, h.2.2 []⟩

/-- C3: the paginated response has `items`, `total`, `page`, `pages`; with a
positive `per_page`, `pages` is the ceiling of `total / per_page` (it is the
least `c` with `total ≤ per_page * c`), and `pages` is `0` when `total`
is `0`. -/
theorem pages_is_ceiling {α : Type} (xs : List α) (page per_page : Nat)
    (hpp : 0 < per_page) :
    (paginate xs page per_page).pages = pagesFor xs.length per_page ∧
    (paginate xs page per_page).total = xs.length ∧
    (paginate xs page per_page).page = page ∧
    (∀ total : Nat, 0 < total → pagesFor total per_page = total ⌈/⌉ per_page) ∧
    (∀ total c : Nat, 0 < total →
      (pagesFor total per_page ≤ c ↔ total ≤ per_page * c)) ∧
    pagesFor 0 per_page = 0 := by
  have hceil : ∀ total : Nat, 0 < total →
      pagesFor total per_page = total ⌈/⌉ per_page := by
    intro total htotal
    rw [Nat.ceilDiv_eq_add_pred_div]
    simp [pagesFor, htotal]
  refine ⟨rfl, rfl, rfl, hceil, ?_, by simp [pagesFor]⟩
  intro total c htotal
  rw [hceil total htotal]
  exact ceilDiv_le_iff_le_mul hpp

/-- Witness for C3 at `total = 25`, `per_page = 10` (spec example: 3 pages),
and `total = 0` (0 pages). -/
theorem pages_is_ceiling_witness :
    (paginate (List.replicate 25 0) 1 10).pages = 3 ∧ pagesFor 0 10 = 0 := by
  have h := pages_is_ceiling (List.replicate 25 0) 1 10 (by decide)
  refine ⟨?_, h.2.2.2.2.2⟩
  rw [h.1]
  decide

/-- C7: `GET /auth/status` never returns an error status: every request gets
HTTP 200; `isAuthenticated` is `false` exactly when the session names no
stored user, and otherwise the body carries the matching user. -/
theorem authStatus_never_errors (sess : Option Nat) (users : List UserRow) :
    (authStatus sess users).1 = 200 ∧
    (authStatus sess users).2.1.isAuthenticated = (sessionUser sess users).isSome ∧
    (authStatus sess users).2.1.user = sessionUser sess users := by
  cases sess with
  | none => exact ⟨rfl, rfl, rfl⟩
  | some uid =>
    have hs : sessionUser (some uid) users = users.find? (fun u => u.id == uid) := rfl
    cases hf : users.find? (fun u => u.id == uid) with
    | none => simp [authStatus, hs, hf]
    | some u => simp [authStatus, hs, hf]

/-- C6: the college stats aggregate includes every college — with zero
programs a college still gets an entry, whose counts are 0 rather than
null or an error — and the program enrollment aggregate includes every
program, with `enrollment` equal to the number of enrolled students
(0 when there are none). -/
theorem aggregates_outer_join (db : DB) :
    (∀ c ∈ db.colleges, ∃ e ∈ (get_college_stats db).2,
      e.code = c.code ∧ e.name = c.name ∧
      (programsOfCollege db c = [] → e.program_count = 0 ∧ e.student_count = 0)) ∧
    (∀ p ∈ db.programs, ∃ e ∈ get_program_stats_enrollment db,
      e.code = p.code ∧ e.name = p.name ∧
      e.enrollment = (studentsOfProgram db p).length) := by
  constructor
  · intro c hc
    refine ⟨collegeStatEntry db c, ?_, rfl, rfl, ?_⟩
    · exact List.mem_map_of_mem _ (List.mem_mergeSort.mpr hc)
    · intro hempty
      have hrows : collegeJoinRows db c = [(none, none)] := by
        simp [collegeJoinRows, hempty]
      simp [collegeStatEntry, hrows]
  · intro p hp
    refine ⟨enrollmentEntry db p,
      List.mem_map_of_mem _ (List.mem_mergeSort.mpr hp), rfl, rfl, ?_⟩
    by_cases h : (studentsOfProgram db p).isEmpty
    · simp [enrollmentEntry, programJoinRows, h, List.isEmpty_iff.mp h]
    · simp [enrollmentEntry, programJoinRows, h, List.filterMap_map]

/-- Witness for C6 on the fixture database: the college appears in the
stats, and the student-free program `BSIT` appears with enrollment 0. -/
theorem aggregates_outer_join_witness :
    (∃ e ∈ (get_college_stats dbFix).2, e.code = "CCS") ∧
    (∃ e ∈ get_program_stats_enrollment
        (⟨[ccs], [⟨"BSIT", "BS Information Technology", some "CCS"⟩], []⟩ : DB),
      e.code = "BSIT" ∧ e.enrollment = 0) := by
  constructor
  · obtain ⟨e, he, hcode, -, -⟩ := (aggregates_outer_join dbFix).1 ccs (by decide)
    exact ⟨e, he, hcode⟩
  · obtain ⟨e, he, hcode, -, hen⟩ :=
      (aggregates_outer_join
        (⟨[ccs], [⟨"BSIT", "BS Information Technology", some "CCS"⟩], []⟩ : DB)).2
        ⟨"BSIT", "BS Information Technology", some "CCS"⟩ (by decide)
    exact ⟨e, he, hcode, by rw [hen]; rfl⟩

/-- C2, counterexample: after a dashboard read on the empty database, a
college create leaves the cached totals in place — the next dashboard read
reports 0 colleges while the college table holds 1 row, so dashboard
totals do not equal the independently-counted rows immediately after a
create. -/
theorem dashboard_stale_after_college_create :
    c2_create.2.2 = .created ⟨"CCS", "College of Computer Studies"⟩ ∧
    c2_read2.1.total_colleges = 0 ∧
    c2_create.1.colleges.length = 1 := by decide

/-- C2, amended: the student create and delete handlers do clear the
dashboard cache, so the next dashboard read recomputes the true per-table
counts; the college create handler leaves the cache untouched. -/
theorem student_mutations_clear_cache :
    (∀ (db : DB) (cache : CacheState) (data : StudentPayload),
      validate_student_data db data none = [] →
        (create_student_json db cache data).2.1 = ⟨none, none, none⟩ ∧
        (get_cached_dashboard_stats (create_student_json db cache data).1
            (create_student_json db cache data).2.1).1
          = computeDashboardTotals (create_student_json db cache data).1) ∧
    (∀ (db : DB) (cache : CacheState) (sid : String) (s : StudentRow),
      db.students.find? (fun t => t.id == upperStr sid) = some s →
        (delete_student_ctrl db cache sid).2.1 = ⟨none, none, none⟩ ∧
        (get_cached_dashboard_stats (delete_student_ctrl db cache sid).1
            (delete_student_ctrl db cache sid).2.1).1
          = computeDashboardTotals (delete_student_ctrl db cache sid).1) ∧
    (∀ (db : DB) (cache : CacheState) (data : CollegePayload),
      (create_college db cache data).2.1 = cache) := by
  refine ⟨?_, ?_, ?_⟩
  · intro db cache data hval
    simp [create_student_json, hval, clear_dashboard_cache,
      get_cached_dashboard_stats]
  · intro db cache sid s hfind
    simp [delete_student_ctrl, hfind, clear_dashboard_cache,
      get_cached_dashboard_stats]
  · intro db cache data
    by_cases h : (validate_college_data db data).isEmpty <;>
      simp [create_college, h]

/-- Witness for the amended C2: creating `payloadJane` on the fixture
database with a warm cache empties the dashboard entries, and a college
create leaves the warm cache untouched. -/
theorem student_mutations_clear_cache_witness :
    (create_student_json dbFix warmCache payloadJane).2.1 = ⟨none, none, none⟩ ∧
    (create_college dbFix warmCache ⟨some "CAS", some "College of Arts"⟩).2.1
      = warmCache := by
  constructor
  · exact (student_mutations_clear_cache.1 dbFix warmCache payloadJane (by decide)).1
  · exact student_mutations_clear_cache.2.2 dbFix warmCache _

/-- C9: `update_student_json` passes the keyword `new_id`, which
`Student.update_student` does not accept, so for every JSON PUT that finds
the student and passes validation the call raises `TypeError`, the handler
answers 500 with the generic body, and the database (and cache) are left
unchanged. -/
theorem update_student_json_type_error (db : DB) (cache : CacheState)
    (sid : String) (data : StudentPayload) (s : StudentRow)
    (hfind : db.students.find? (fun t => t.id == upperStr sid) = some s)
    (hval : validate_student_data db data (some (upperStr sid)) = []) :
    updateCallRaisesTypeError = true ∧
    update_student_json db cache sid data
      = (db, cache, .serverError "Failed to update student") := by
  have hb : updateCallRaisesTypeError = true := by decide
  refine ⟨hb, ?_⟩
  simp [update_student_json, hfind, hval, hb]

/-- Witness for C9: updating the fixture student with a payload that passes
validation yields the generic 500 and an unchanged database. -/
theorem update_student_json_type_error_witness :
    update_student_json dbFix warmCache "2024-0001" payloadJohn
      = (dbFix, warmCache, .serverError "Failed to update student") :=
  (update_student_json_type_error dbFix warmCache "2024-0001" payloadJohn stuJohn
    (by decide) (by decide)).2

/-- C8, counterexample: the ORM-iteration validator
(`routes/student.py:44-48`) reports an unknown course with the bare
message `"Invalid program code"`; no valid program code (e.g. `BSCS` or
`BSIT`, both present) occurs in it, so validation does not always list a
sample of valid codes. -/
theorem routes_course_error_no_sample :
    validate_student_data_routes
        ⟨[], [bscs, ⟨"BSIT", "BS Information Technology", some "CCS"⟩], []⟩
        ⟨some "2024-0001", some "John", some "Doe", some "XX", some 1,
          some "Male", none, none⟩ none
      = ["Invalid program code"] ∧
    isSubList "BSCS".data "Invalid program code".data = false ∧
    isSubList "BSIT".data "Invalid program code".data = false := by decide

/-- C8, amended: in the app iteration, when the course references no
existing program and at least one program exists, the validator emits the
message `Invalid program code '<course>'. Available: ...` and each of the
first 5 valid program codes occurs verbatim in that message; the
ORM-iteration validator emits only `"Invalid program code"` with no
sample (and with no programs at all the app message also carries none). -/
theorem invalid_course_lists_sample (db : DB) (data : StudentPayload)
    (sid : Option String) (c0 : String)
    (hcourse : data.course = some c0) (hne : c0 ≠ "")
    (hmiss : (validProgramCodes db).contains (upperStr c0) = false) :
    invalidCourseMsg db c0 ∈ validate_student_data db data sid ∧
    ∀ code ∈ (validProgramCodes db).take 5,
      isSubList code.data (invalidCourseMsg db c0).data = true := by
  constructor
  · have hnm : upperStr c0 ∉ validProgramCodes db := by
      intro hmem
      rw [List.contains_eq_any_beq] at hmiss
      exact absurd (List.any_eq_true.mpr ⟨_, hmem, beq_self_eq_true _⟩)
        (by simp [hmiss])
    simp [validate_student_data, hcourse, hne, hmiss, hnm]
  · intro code hcode
    have hav : ((validProgramCodes db).take 5).isEmpty = false := by
      rcases h5 : (validProgramCodes db).take 5 with _ | ⟨a, rest⟩
      · rw [h5] at hcode; cases hcode
      · rfl
    obtain ⟨pre, post, hd⟩ := joinComma_decomp _ _ hcode
    rw [isSubList_iff]
    refine ⟨("Invalid program code '" ++ c0 ++ "'" ++ ". Available: ").data ++ pre,
      post ++ "...".data, ?_⟩
    simp [invalidCourseMsg, hav, hd, List.append_assoc]

/-- Witness for the amended C8 at a concrete unknown course `"XX"`: the
sampled message is produced and contains the valid code `BSCS`. -/
theorem invalid_course_lists_sample_witness :
    invalidCourseMsg dbFix "XX" ∈ validate_student_data dbFix
      ⟨some "2024-0002", some "Jane", some "Roe", some "XX", some 1,
        some "Male", none, none⟩ none ∧
    isSubList "BSCS".data (invalidCourseMsg dbFix "XX").data = true := by
  have h := invalid_course_lists_sample dbFix
    ⟨some "2024-0002", some "Jane", some "Roe", some "XX", some 1,
      some "Male", none, none⟩ none "XX" rfl (by decide) (by decide)
  exact ⟨h.1, h.2 "BSCS" (by decide)⟩

theorem char_toUpper_idem (c : Char) : c.toUpper.toUpper = c.toUpper := by
  simp only [Char.toUpper]
  by_cases h : c.toNat ≥ 97 ∧ c.toNat ≤ 122
  · rw [if_pos h]
    have hval : Nat.isValidChar (c.toNat - 32) := Or.inl (by omega)
    have ht : (Char.ofNat (c.toNat - 32)).toNat = c.toNat - 32 := by
      rw [Char.ofNat, dif_pos hval]
      rfl
    rw [if_neg]
    rw [ht]
    omega
  · rw [if_neg h, if_neg h]

theorem upperStr_idem (s : String) : upperStr (upperStr s) = upperStr s := by
  have h : (s.data.map Char.toUpper).map Char.toUpper = s.data.map Char.toUpper := by
    rw [List.map_map]
    exact List.map_congr_left fun a _ => char_toUpper_idem a
  exact congrArg String.mk h

/-- C10: the student controllers normalise ids to uppercase — create stores
an uppercased id, and create, delete, and (attempted) update preserve the
all-ids-uppercase invariant — and the id lookups behind `GET` and `DELETE`
use `student_id.upper()`, so two ids with the same uppercasing are
interchangeable at the public interface. -/
theorem student_id_uppercase (db : DB) (cache : CacheState)
    (data : StudentPayload) (sid sid' : String)
    (hAll : AllUpperIds db) (hsid : upperStr sid = upperStr sid') :
    AllUpperIds (create_student_json db cache data).1 ∧
    AllUpperIds (delete_student_ctrl db cache sid).1 ∧
    AllUpperIds (update_student_json db cache sid data).1 ∧
    get_student_ctrl db sid = get_student_ctrl db sid' ∧
    delete_student_ctrl db cache sid = delete_student_ctrl db cache sid' := by
  refine ⟨?_, ?_, ?_, ?_, ?_⟩
  · intro s hs
    by_cases h : (validate_student_data db data none).isEmpty
    · simp only [create_student_json, h, if_pos] at hs
      rcases List.mem_append.mp hs with h1 | h1
      · exact hAll s h1
      · rcases List.mem_singleton.mp h1 with rfl
        exact upperStr_idem _
    · simp only [create_student_json, h] at hs
      exact hAll s (by simpa using hs)
  · intro s hs
    rcases hf : db.students.find? (fun t => t.id == upperStr sid) with _ | t
    · simp only [delete_student_ctrl, hf] at hs
      exact hAll s hs
    · simp only [delete_student_ctrl, hf] at hs
      exact hAll s (List.mem_of_mem_filter hs)
  · intro s hs
    rcases hf : db.students.find? (fun t => t.id == upperStr sid) with _ | t
    · simp only [update_student_json, hf] at hs
      exact hAll s hs
    · by_cases hv : (validate_student_data db data (some (upperStr sid))).isEmpty
      · have hb : updateCallRaisesTypeError = true := by decide
        simp only [update_student_json, hf, hv, hb, if_pos, if_true] at hs
        exact hAll s hs
      · simp only [update_student_json, hf, hv] at hs
        exact hAll s (by simpa using hs)
  · rw [get_student_ctrl, get_student_ctrl, hsid]
  · rw [delete_student_ctrl, delete_student_ctrl, hsid]

/-- Witness for C10 on the fixture database: the create preserves the
uppercase invariant, and a lower-case id variant hits the same lookup. -/
theorem student_id_uppercase_witness :
    AllUpperIds (create_student_json dbFix warmCache payloadJane).1 ∧
    get_student_ctrl dbFix "bscs-x" = get_student_ctrl dbFix "BSCS-X" := by
  have hAll : AllUpperIds dbFix := by
    intro s hs
    rcases List.mem_singleton.mp hs with rfl
    decide
  have h := student_id_uppercase dbFix warmCache payloadJane "bscs-x" "BSCS-X"
    hAll (by decide)
  exact ⟨h.1, h.2.2.2.1⟩

theorem cascade_pred_eq (db : DB) (old : String) (hFK : CourseFK db)
    (s : StudentRow) (hs : s ∈ db.students) :
    (db.programs.any fun p =>
        (s.course == some p.code) && (upperStr p.code == upperStr old))
      = ((s.course.map upperStr) == some (upperStr old)) := by
  cases hsc : s.course with
  | none => simp
  | some c =>
    simp only [Option.map_some']
    rw [Bool.eq_iff_iff]
    simp only [List.any_eq_true, Bool.and_eq_true, beq_iff_eq, Option.some.injEq]
    constructor
    · rintro ⟨p, hp, hcp, hup⟩
      rw [hcp]; exact hup
    · intro hcu
      obtain ⟨p, hp, hpc⟩ := hFK s hs c hsc
      exact ⟨p, hp, hpc.symm, by rw [hpc]; exact hcu⟩

theorem cascade_count_eq (db : DB) (old nc : String) (hFK : CourseFK db)
    (hNoNew : ∀ p ∈ db.programs, upperStr p.code ≠ upperStr nc) :
    ((db.students.map fun s =>
        if (s.course.map upperStr) == some (upperStr old)
        then { s with course := some nc } else s).filter
      fun s => s.course == some nc).length
    = (db.students.filter fun s =>
        (s.course.map upperStr) == some (upperStr old)).length := by
  rw [List.filter_map, List.length_map]
  congr 1
  apply List.filter_congr
  intro s hs
  simp only [Function.comp_apply]
  by_cases hm : ((s.course.map upperStr) == some (upperStr old)) = true
  · rw [if_pos hm, hm]
    simp
  · rw [if_neg hm]
    have hb : ((s.course.map upperStr) == some (upperStr old)) = false :=
      Bool.not_eq_true _ ▸ hm
    rw [hb]
    cases hsc : s.course with
    | none => rfl
    | some c =>
      have hcnc : c ≠ nc := by
        rintro rfl
        obtain ⟨p, hp, hpc⟩ := hFK s hs c hsc
        exact hNoNew p hp (by rw [hpc])
      simp [hcnc]

theorem cascadeRename_commits (db : DB) (old nc : String)
    (hFK : CourseFK db)
    (hNoNew : ∀ p ∈ db.programs, upperStr p.code ≠ upperStr nc) :
    cascadeRename db old nc =
      ({ colleges := db.colleges
         programs := db.programs.map fun p =>
           if upperStr p.code == upperStr old then { p with code := nc } else p
         students := db.students.map fun s =>
           if (s.course.map upperStr) == some (upperStr old)
           then { s with course := some nc } else s },
       .ok ((db.programs.map fun p =>
            if upperStr p.code == upperStr old then { p with code := nc } else p).find?
            fun p => upperStr p.code == upperStr nc)
         true
         (db.students.filter fun s =>
           (s.course.map upperStr) == some (upperStr old)).length) := by
  have hstud : (db.students.map fun s =>
      if db.programs.any (fun p =>
          (s.course == some p.code) && (upperStr p.code == upperStr old))
      then { s with course := some nc } else s)
    = db.students.map fun s =>
      if (s.course.map upperStr) == some (upperStr old)
      then { s with course := some nc } else s := by
    apply List.map_congr_left
    intro s hs
    rw [cascade_pred_eq db old hFK s hs]
  simp only [cascadeRename, hstud, cascade_count_eq db old nc hFK hNoNew,
    ne_eq, not_true_eq_false, if_false, ite_false]

theorem cascadeRename_cases (db : DB) (old nc : String) :
    cascadeRename db old nc =
      (db, .rolledBack
        "Failed to update all student references. Transaction rolled back.") ∨
    ∃ db' prog aff, cascadeRename db old nc = (db', .ok prog true aff) := by
  dsimp only [cascadeRename]
  split
  · exact .inl rfl
  · exact .inr ⟨_, _, _, rfl⟩

theorem no_conflicting_program (db : DB) (data : ProgramPayload)
    (codeParam : String) (existing : ProgramRow) (c0 : String)
    (hfind : db.programs.find? (fun p => upperStr p.code == upperStr codeParam)
      = some existing)
    (hval : validate_program_data db data (some (upperStr codeParam)) = [])
    (hcode : data.code = some c0)
    (hchanged : upperStr (pyStrip c0) ≠ upperStr existing.code) :
    ∀ p ∈ db.programs, upperStr p.code ≠ upperStr (pyStrip c0) := by
  have hexist : upperStr existing.code = upperStr codeParam := by
    simpa using List.find?_some hfind
  intro p hp hup
  have hc0 : c0 ≠ "" := by
    intro h0
    have hmem : "code is required"
        ∈ validate_program_data db data (some (upperStr codeParam)) := by
      simp [validate_program_data, hcode, h0, orEmpty]
    rw [hval] at hmem
    cases hmem
  rcases hq : db.programs.find? (fun q => upperStr q.code == upperStr (pyStrip c0))
    with _ | q
  · have := List.find?_eq_none.mp hq p hp
    simp [hup] at this
  · have hq3 : upperStr q.code = upperStr (pyStrip c0) := by
      simpa using List.find?_some hq
    by_cases hq2 : upperStr q.code ≠ upperStr (upperStr codeParam)
    · have hmem : "Program code already exists"
          ∈ validate_program_data db data (some (upperStr codeParam)) := by
        simp [validate_program_data, hcode, hc0, hq, hq2]
      rw [hval] at hmem
      cases hmem
    · push_neg at hq2
      rw [upperStr_idem] at hq2
      exact hchanged (by rw [← hq3, hq2, ← hexist])

/-- C1: for a program-code rename that passed validation, the single
transactional unit commits the rename together with its cascade: the
program row gets the new code, every student row whose `course` matched
the old code (and only those) now carries the new code, the count of rows
now referencing the new code equals the count that referenced the old one
(so the verification step passes and nothing is rolled back), and other
tables are untouched; and whenever the verification counts do mismatch,
the transaction block returns the *unchanged* database together with the
error message naming the rollback — no partial cascade is ever
committed. -/
theorem program_rename_atomic_cascade (db : DB) (codeParam : String)
    (data : ProgramPayload) (existing : ProgramRow) (c0 : String)
    (hFK : CourseFK db)
    (hfind : db.programs.find? (fun p => upperStr p.code == upperStr codeParam)
      = some existing)
    (hval : validate_program_data db data (some (upperStr codeParam)) = [])
    (hcode : data.code = some c0)
    (hchanged : upperStr (pyStrip c0) ≠ upperStr existing.code) :
    update_program db codeParam data =
      ({ colleges := db.colleges
         programs := db.programs.map fun p =>
           if upperStr p.code == upperStr existing.code
           then { p with code := pyStrip c0 } else p
         students := db.students.map fun s =>
           if (s.course.map upperStr) == some (upperStr existing.code)
           then { s with course := some (pyStrip c0) } else s },
       .ok ((db.programs.map fun p =>
            if upperStr p.code == upperStr existing.code
            then { p with code := pyStrip c0 } else p).find?
            fun p => upperStr p.code == upperStr (pyStrip c0))
         true
         (db.students.filter fun s =>
           (s.course.map upperStr) == some (upperStr existing.code)).length) ∧
    ((update_program db codeParam data).1.students.filter
        fun s => s.course == some (pyStrip c0)).length
      = (db.students.filter fun s =>
          (s.course.map upperStr) == some (upperStr existing.code)).length ∧
    (∀ (db₂ : DB) (old₂ nc₂ msg : String),
      (cascadeRename db₂ old₂ nc₂).2 = .rolledBack msg →
        (cascadeRename db₂ old₂ nc₂).1 = db₂ ∧
        msg = "Failed to update all student references. Transaction rolled back.") := by
  have hNoNew := no_conflicting_program db data codeParam existing c0 hfind hval
    hcode hchanged
  have hroute : update_program db codeParam data
      = cascadeRename db existing.code (pyStrip c0) := by
    unfold update_program
    rw [hfind]
    simp only [hval, hcode, List.isEmpty_nil, if_true]
    rw [if_pos hchanged]
    rw [if_neg (by simp)]
  have hcommit := cascadeRename_commits db existing.code (pyStrip c0) hFK hNoNew
  refine ⟨hroute.trans hcommit, ?_, ?_⟩
  · rw [hroute, hcommit]
    exact cascade_count_eq db existing.code (pyStrip c0) hFK hNoNew
  · intro db₂ old₂ nc₂ msg h
    rcases cascadeRename_cases db₂ old₂ nc₂ with hcase | ⟨db', prog, aff, hcase⟩
    · rw [hcase] at h ⊢
      exact ⟨rfl, by simpa using h.symm⟩
    · rw [hcase] at h
      cases h

/-- Witness for C1 (spec example §8): renaming `P1` to `P2` commits,
reports one affected student, and the enrolled student's `course` now
reads `P2`. -/
theorem program_rename_atomic_cascade_witness :
    (update_program dbP1 "P1" ⟨some "P2", some "Program Two", some "CCS"⟩).2
      = .ok (some ⟨"P2", "Program One", some "CCS"⟩) true 1 ∧
    (update_program dbP1 "P1" ⟨some "P2", some "Program Two", some "CCS"⟩).1.students
      = [⟨"2024-0001", "John", "Doe", some "P2", 2, "Male", none, none⟩] := by
  have hFK : CourseFK dbP1 := by
    intro s hs c hc
    rcases List.mem_singleton.mp hs with rfl
    injection hc with h
    exact ⟨⟨"P1", "Program One", some "CCS"⟩, by decide, h⟩
  have h := program_rename_atomic_cascade dbP1 "P1"
    ⟨some "P2", some "Program Two", some "CCS"⟩
    ⟨"P1", "Program One", some "CCS"⟩ "P2" hFK (by decide) (by decide) rfl
    (by decide)
  constructor
  · rw [h.1]
    decide
  · rw [h.1]
    decide

end SSIS
